import Mathlib

/-!
Verification of the scoring / risk-banding / cluster-prediction core of the
Mental Health Cluster Insight Tool (`app.py`).

Shallow embedding conventions:
* An answer set (`user_input`, a Python dict keyed by the eight feature
  names) is a total function `String → String`; the Streamlit UI always
  populates every key before any scoring code runs.
* The severity map artifact (`severity_map.joblib`) is an opaque lookup
  table `String → Option Int`; `severity_map.get(x, 1)` becomes
  `(sev x).getD 1`.
* The pre-fitted MCA transformer is an opaque encoder sending the row of
  core-symptom answers to a numeric vector whose entries may be
  missing/NaN, hence `List String → List (Option ℚ)`; `.fillna(0)`
  becomes `Option.getD 0` entrywise.
* The per-band cluster models table is an opaque `String → List ℚ → Int`
  (`cluster_models[risk_band].predict(...)` then `int(...)`).
* `generate_pdf` is modelled as the ordered list of text strings drawn on
  the canvas; the call to `datetime.now()` is a parameter `now`.
-/

abbrev Answers := String → String

abbrev SevMap := String → Option Int

abbrev Encoder := List String → List (Option ℚ)

abbrev ClusterModels := String → List ℚ → Int

def features : List String :=
  ["family_history", "treatment", "Growing_Stress", "Changes_Habits",
   "Mood_Swings", "Coping_Struggles", "Work_Interest", "Social_Weakness"]

def core_symptoms : List String :=
  ["Growing_Stress", "Changes_Habits", "Mood_Swings",
   "Coping_Struggles", "Work_Interest", "Social_Weakness"]

/-- `severity_map.get(user_input[col], 1)`: lookup with default weight 1. -/
def severityGet (sev : SevMap) (s : String) : Int :=
  (sev s).getD 1

/-- `calculate_mdi`: sum of `severity_map.get(user_input[col], 1)` over
`core_symptoms`. -/
def calculate_mdi (sev : SevMap) (u : Answers) : Int :=
  (core_symptoms.map (fun col => severityGet sev (u col))).sum

/-- `assign_risk_band`: `"High"` if `mdi >= 8`, else `"Moderate"` if
`mdi >= 4`, else `"Low"`. -/
def assign_risk_band (mdi : Int) : String :=
  if mdi ≥ 8 then "High"
  else if mdi ≥ 4 then "Moderate"
  else "Low"

/-- Rank of a band in the order Low < Moderate < High, used to state
monotonicity of the band classifier. -/
def bandRank (b : String) : Nat :=
  if b = "Low" then 0 else if b = "Moderate" then 1 else 2

/-- `X_mca = mca.transform(df[core_symptoms]).fillna(0)`: encode the
core-symptom answer row, then replace every missing entry by 0. -/
def X_mca (encode : Encoder) (u : Answers) : List ℚ :=
  (encode (core_symptoms.map u)).map (fun v => v.getD 0)

/-- `X_mca.iloc[:, :3] *= 2`: the entries at positions 0, 1, 2 are doubled,
all later entries are unchanged. -/
def doubleFirst3 : List ℚ → List ℚ
  | [] => []
  | [a] => [a * 2]
  | [a, b] => [a * 2, b * 2]
  | a :: b :: c :: rest => a * 2 :: b * 2 :: c * 2 :: rest

/-- `predict_cluster`: compute the MDI and band, encode and fill the
core-symptom row, double the first three components, and run the
band-keyed cluster model on the weighted vector. -/
def predict_cluster (encode : Encoder) (models : ClusterModels)
    (sev : SevMap) (u : Answers) : Int × String × Int :=
  let mdi := calculate_mdi sev u
  let risk_band := assign_risk_band mdi
  let x := doubleFirst3 (X_mca encode u)
  (mdi, risk_band, models risk_band x)

/-- `diagnosis_map`: per-band assessment text, as a key/value table. -/
def diagnosis_map : List (String × String) :=
  [("Low", "Your responses suggest stable emotional well-being with healthy coping patterns."),
   ("Moderate", "Your responses indicate ongoing stress that may be affecting balance and daily energy."),
   ("High", "Your responses reflect significant emotional strain that may be overwhelming your current coping capacity.")]

/-- `suggestions_map`: per-band suggestion lists, as a key/value table. -/
def suggestions_map : List (String × List String) :=
  [("Low",
    ["Maintain consistent sleep and daily routines.",
     "Continue activities that help you relax or feel fulfilled.",
     "Stay socially connected with people you trust.",
     "Practice occasional self-reflection or journaling.",
     "Maintain healthy work–life boundaries.",
     "Respond early when stress levels begin to rise."]),
   ("Moderate",
    ["Break daily tasks into smaller, manageable steps.",
     "Schedule at least one restorative break each day.",
     "Reduce non-essential commitments temporarily.",
     "Engage in light physical activity such as walking.",
     "Practice grounding or breathing exercises.",
     "Talk openly with a trusted friend or family member.",
     "Re-establish consistent sleep and meal routines."]),
   ("High",
    ["Prioritize rest and reduce mental overload wherever possible.",
     "Seek support from a trusted person instead of coping alone.",
     "Use grounding techniques such as slow breathing or sensory focus.",
     "Avoid major decisions while feeling emotionally overwhelmed.",
     "Create predictable daily structure using small routines.",
     "Limit exposure to unnecessary stressors.",
     "Consider reaching out to a mental health professional.",
     "Spend time in calming environments."])]

/-- `color_map`: the UI badge color per band. -/
def color_map : List (String × String) :=
  [("Low", "#2ecc71"), ("Moderate", "#f1c40f"), ("High", "#e74c3c")]

/-- `generate_pdf`, modelled as the ordered list of text strings drawn on
the PDF canvas; `now` stands for the `datetime.now()` timestamp string.
The `Prepared For` line is drawn only when `user_name` is non-empty. -/
def generate_pdf (user_name now risk_band diagnosis : String)
    (suggestions : List String) : List String :=
  ["Mental Well-Being Report"] ++
  (if user_name ≠ "" then ["Prepared For: " ++ user_name] else []) ++
  ["Date Generated: " ++ now,
   "Risk Level: " ++ risk_band,
   diagnosis,
   "Recommended Activities"] ++
  suggestions.map (fun s => "- " ++ s) ++
  ["Disclaimer: This is not a medical diagnosis."]

/-- C1: every threshold belongs to the higher band. -/
theorem assign_risk_band_thresholds :
    (∀ m : Int,
      (assign_risk_band m = "High" ↔ 8 ≤ m) ∧
      (assign_risk_band m = "Moderate" ↔ 4 ≤ m ∧ m < 8) ∧
      (assign_risk_band m = "Low" ↔ m < 4)) ∧
    assign_risk_band 9 = "High" ∧
    assign_risk_band 5 = "Moderate" ∧
    assign_risk_band 2 = "Low" := by
  refine ⟨fun m => ?_, by decide, by decide, by decide⟩
  unfold assign_risk_band
  split_ifs with h1 h2 <;> refine ⟨?_, ?_, ?_⟩ <;> simp <;> omega

/-- C3: `assign_risk_band` is monotone non-decreasing with respect to the
band order Low < Moderate < High. -/
theorem assign_risk_band_monotone (i j : Int) (h : i ≤ j) :
    bandRank (assign_risk_band i) ≤ bandRank (assign_risk_band j) := by
  unfold assign_risk_band
  split_ifs <;> first | decide | omega

/-- C3 witness: the monotonicity theorem at the concrete pair 3 ≤ 10. -/
theorem assign_risk_band_monotone_witness :
    (3 : Int) ≤ 10 ∧
    bandRank (assign_risk_band 3) ≤ bandRank (assign_risk_band 10) :=
  ⟨by decide, assign_risk_band_monotone 3 10 (by decide)⟩

/-- The sum over `core_symptoms` in which the designated question `q`
contributes `c` minus its severity weight while every other question
contributes its severity weight — the shape of the scorer alleged by the
reversed-polarity claim. -/
def invertedSum (q : String) (c : Int) (sev : SevMap) (u : Answers) : Int :=
  (core_symptoms.map (fun k =>
    if k = q then c - severityGet sev (u k) else severityGet sev (u k))).sum

/-- C2 counterexample: no choice of designated question `q` and constant
`c` makes `calculate_mdi` agree with the one-question-inverted sum for
every severity-map artifact and answer set: `calculate_mdi` adds every
core-symptom weight with positive polarity. -/
theorem calculate_mdi_no_inverted_question :
    ¬ ∃ q, q ∈ core_symptoms ∧ ∃ c : Int, ∀ (sev : SevMap) (u : Answers),
      calculate_mdi sev u = invertedSum q c sev u := by
  rintro ⟨q, hq, c, h⟩
  have h0 := h (fun _ => some 0) (fun _ => "x")
  have h1 := h (fun _ => some 1) (fun _ => "x")
  fin_cases hq <;>
    simp [calculate_mdi, invertedSum, core_symptoms, severityGet] at h0 h1 <;>
    omega

/-- The scorer as the spec's words describe it after amendment: the plain
sum of the six core-symptom severity weights, no polarity inversion. -/
def plainSixSum (sev : SevMap) (u : Answers) : Int :=
  severityGet sev (u "Growing_Stress") + severityGet sev (u "Changes_Habits") +
  severityGet sev (u "Mood_Swings") + severityGet sev (u "Coping_Struggles") +
  severityGet sev (u "Work_Interest") + severityGet sev (u "Social_Weakness")

/-- C2 amended: for every severity map and answer set, `calculate_mdi` is
the plain sum of the severity weights of the six core-symptom questions,
each taken with positive polarity. -/
theorem calculate_mdi_eq_plainSixSum (sev : SevMap) (u : Answers) :
    calculate_mdi sev u = plainSixSum sev u := by
  simp [calculate_mdi, plainSixSum, core_symptoms]
  ring

/-- C4: an option string absent from the severity map resolves to the
default weight 1, and `calculate_mdi` returns the same total as it would
if that default were an explicit entry of the map: scoring completes with
the default, never with an error. -/
theorem calculate_mdi_default_weight (sev : SevMap) (u : Answers)
    (q : String) (_hq : q ∈ core_symptoms) (hmiss : sev (u q) = none) :
    severityGet sev (u q) = 1 ∧
    calculate_mdi sev u = calculate_mdi (fun s => some (severityGet sev s)) u := by
  constructor
  · simp [severityGet, hmiss]
  · simp [calculate_mdi, severityGet]

/-- C4 witness: the default-weight theorem at a concrete empty severity
map and an answer set choosing an option unseen by the map. -/
theorem calculate_mdi_default_weight_witness :
    ("Mood_Swings" ∈ core_symptoms ∧
      (fun _ => (none : Option Int)) ((fun _ => "Unknown") "Mood_Swings") = none) ∧
    (severityGet (fun _ => none) ((fun _ => "Unknown") "Mood_Swings") = 1 ∧
      calculate_mdi (fun _ => none) (fun _ => "Unknown") =
        calculate_mdi (fun s => some (severityGet (fun _ => none) s)) (fun _ => "Unknown")) :=
  ⟨⟨by decide, rfl⟩,
    calculate_mdi_default_weight (fun _ => none) (fun _ => "Unknown")
      "Mood_Swings" (by decide) rfl⟩

/-- C5: `predict_cluster` is deterministic — with the same loaded
artifacts, identical answer sets yield identical (mdi, band, cluster id)
triples; the embedding is a pure function of its inputs. -/
theorem predict_cluster_deterministic (encode : Encoder)
    (models : ClusterModels) (sev : SevMap) (u1 u2 : Answers)
    (h : u1 = u2) :
    predict_cluster encode models sev u1 = predict_cluster encode models sev u2 := by
  rw [h]

/-- C5 witness: determinism at a concrete answer set and concrete
artifacts. -/
theorem predict_cluster_deterministic_witness :
    predict_cluster (fun _ => [some 1, none]) (fun _ v => v.length)
        (fun _ => some 2) (fun _ => "Elevated") =
      predict_cluster (fun _ => [some 1, none]) (fun _ v => v.length)
        (fun _ => some 2) (fun _ => "Elevated") :=
  predict_cluster_deterministic (fun _ => [some 1, none]) (fun _ v => v.length)
    (fun _ => some 2) (fun _ => "Elevated") (fun _ => "Elevated") rfl

/-- The re-weighting as the spec words it: the first 3 positions of the
vector multiplied by 2, the remainder untouched. -/
def specReweight (xs : List ℚ) : List ℚ :=
  (xs.take 3).map (fun v => v * 2) ++ xs.drop 3

lemma doubleFirst3_eq_specReweight (xs : List ℚ) :
    doubleFirst3 xs = specReweight xs := by
  rcases xs with _ | ⟨a, _ | ⟨b, _ | ⟨c, rest⟩⟩⟩ <;>
    simp [doubleFirst3, specReweight, mul_comm]

/-- C6: `predict_cluster` encodes the core-symptom column subset, doubles
exactly the first 3 positions of the (zero-filled) encoded vector, selects
the cluster model keyed by the computed band, and applies that model to
the weighted vector. -/
theorem predict_cluster_steps (encode : Encoder) (models : ClusterModels)
    (sev : SevMap) (u : Answers) :
    predict_cluster encode models sev u =
      (calculate_mdi sev u, assign_risk_band (calculate_mdi sev u),
        models (assign_risk_band (calculate_mdi sev u))
          (specReweight (X_mca encode u))) := by
  simp [predict_cluster, doubleFirst3_eq_specReweight]

/-- C7: a missing/undefined value produced by the encoder at any position
is replaced by the sentinel 0 in the filled vector `X_mca`, and the
cluster id is computed from the (reweighted) filled vector only — the
undefined value never reaches the cluster model. -/
theorem predict_cluster_fillna_zero (encode : Encoder)
    (models : ClusterModels) (sev : SevMap) (u : Answers) (i : Nat)
    (h : (encode (core_symptoms.map u))[i]? = some none) :
    (X_mca encode u)[i]? = some 0 ∧
    (predict_cluster encode models sev u).2.2 =
      models (assign_risk_band (calculate_mdi sev u))
        (doubleFirst3 (X_mca encode u)) := by
  constructor
  · simp [X_mca, List.getElem?_map, h]
  · simp [predict_cluster]

/-- C7 witness: a concrete encoder emitting a missing value at position 0,
which the pipeline replaces by 0. -/
theorem predict_cluster_fillna_zero_witness :
    ((fun _ => [none, some (1 : ℚ)] : Encoder) (core_symptoms.map (fun _ => "x")))[0]? =
        some (none : Option ℚ) ∧
    ((X_mca (fun _ => [none, some (1 : ℚ)]) (fun _ => "x"))[0]? = some 0 ∧
      (predict_cluster (fun _ => [none, some (1 : ℚ)]) (fun _ _ => 0)
          (fun _ => none) (fun _ => "x")).2.2 =
        (fun _ _ => (0 : Int)) (assign_risk_band (calculate_mdi (fun _ => none) (fun _ => "x")))
          (doubleFirst3 (X_mca (fun _ => [none, some (1 : ℚ)]) (fun _ => "x")))) :=
  ⟨rfl, predict_cluster_fillna_zero (fun _ => [none, some (1 : ℚ)]) (fun _ _ => 0)
    (fun _ => none) (fun _ => "x") 0 rfl⟩

/-- C9: answer sets that agree on the six core-symptom keys produce the
same (mdi, band, cluster id) triple, whatever their values at
`family_history` and `treatment`: only the core-symptom answers reach the
scorer and the encoder. -/
theorem predict_cluster_noncore_noninterference (encode : Encoder)
    (models : ClusterModels) (sev : SevMap) (u1 u2 : Answers)
    (h : ∀ k ∈ core_symptoms, u1 k = u2 k) :
    predict_cluster encode models sev u1 = predict_cluster encode models sev u2 := by
  have hmap : core_symptoms.map u1 = core_symptoms.map u2 :=
    List.map_congr_left h
  have hmdi : calculate_mdi sev u1 = calculate_mdi sev u2 := by
    unfold calculate_mdi
    rw [List.map_congr_left (fun col hc => by rw [h col hc])]
  unfold predict_cluster X_mca
  rw [hmdi, hmap]

/-- C9 witness: two answer sets equal on the core-symptom keys but with
opposite `family_history` and `treatment` answers get the same triple. -/
theorem predict_cluster_noncore_noninterference_witness :
    (∀ k ∈ core_symptoms,
      (fun k => if k = "family_history" ∨ k = "treatment" then "Yes" else "Manageable") k =
      (fun k => if k = "family_history" ∨ k = "treatment" then "No" else "Manageable") k) ∧
    predict_cluster (fun _ => [some 1]) (fun _ v => v.length) (fun _ => some 1)
        (fun k => if k = "family_history" ∨ k = "treatment" then "Yes" else "Manageable") =
      predict_cluster (fun _ => [some 1]) (fun _ v => v.length) (fun _ => some 1)
        (fun k => if k = "family_history" ∨ k = "treatment" then "No" else "Manageable") :=
  ⟨by decide,
    predict_cluster_noncore_noninterference (fun _ => [some 1])
      (fun _ v => v.length) (fun _ => some 1)
      (fun k => if k = "family_history" ∨ k = "treatment" then "Yes" else "Manageable")
      (fun k => if k = "family_history" ∨ k = "treatment" then "No" else "Manageable")
      (by decide)⟩

/-- C8 counterexample: a run whose computed risk index is 6 and band is
"Moderate" renders, at the call site's arguments, a document none of
whose lines contains the character 6 — so the decimal representation of
the computed risk index appears nowhere in the rendered document. -/
theorem generate_pdf_drops_risk_index :
    calculate_mdi (fun _ => some 1) (fun _ => "x") = 6 ∧
    assign_risk_band 6 = "Moderate" ∧
    ((generate_pdf "" "01/01/2020, 10:00 AM" "Moderate"
        ((List.lookup "Moderate" diagnosis_map).getD "")
        ((List.lookup "Moderate" suggestions_map).getD [])).all
      (fun line => !line.toList.contains '6')) = true := by
  refine ⟨by decide, by decide, ?_⟩
  decide

/-- C8 amended: the rendered document always states a risk level equal to
the computed band (the band is never dropped), but the computed risk
index is not part of the rendered document — `generate_pdf` is not even
given the index. -/
theorem generate_pdf_states_band (encode : Encoder)
    (models : ClusterModels) (sev : SevMap) (u : Answers)
    (user_name now : String) :
    ("Risk Level: " ++ (predict_cluster encode models sev u).2.1) ∈
      generate_pdf user_name now (predict_cluster encode models sev u).2.1
        ((List.lookup (predict_cluster encode models sev u).2.1 diagnosis_map).getD "")
        ((List.lookup (predict_cluster encode models sev u).2.1 suggestions_map).getD []) := by
  unfold generate_pdf
  simp

/-- C10: the band classifier's range is exactly the three strings "Low",
"Moderate", "High", and `diagnosis_map`, `suggestions_map` and
`color_map` each have an entry for every band the classifier can return,
so the per-band lookups of the report path cannot fail. -/
theorem assign_risk_band_lookups_total (m : Int) :
    (assign_risk_band m = "Low" ∨ assign_risk_band m = "Moderate" ∨
      assign_risk_band m = "High") ∧
    (List.lookup (assign_risk_band m) diagnosis_map).isSome = true ∧
    (List.lookup (assign_risk_band m) suggestions_map).isSome = true ∧
    (List.lookup (assign_risk_band m) color_map).isSome = true := by
  unfold assign_risk_band
  split_ifs <;> decide
